import Mathlib

/-!
Verification development for the retrieval and decision engine of the
vnpt-track2 repository: a shallow embedding in Lean 4 of the hybrid
RRF retriever (src/runtime/rag/fusion.py, hybrid_search.py,
temporal_filter.py), the domain mapper (src/brain/agent/domain_mapper.py),
the safety firewall (src/runtime/safety/guard.py and
src/brain/agent/guardrail.py) and the query router
(src/brain/agent/agent.py), together with theorems about them.

Numeric scores (Python floats) are embedded as rationals; the per-query
behaviour of the injected language-model capability is a parameter; Python
exceptions are embedded with an Except monad.
-/

-- ===========================================================================
-- Python exception and value universe (for the dynamically typed agent code)
-- ===========================================================================

/-- The Python exceptions that the embedded code can raise. -/
inductive PyExn where
  | timeoutError : PyExn
  | valueError : String → PyExn
  | typeError : String → PyExn
  | attributeError : String → PyExn
  | keyError : String → PyExn
  | indexError : String → PyExn
  | appError : String → PyExn
deriving DecidableEq, Repr

/-- Message text of an exception, as produced by the Python str call. -/
def PyExn.message : PyExn → String
  | .timeoutError => "TimeoutError"
  | .valueError m => m
  | .typeError m => m
  | .attributeError m => m
  | .keyError m => m
  | .indexError m => m
  | .appError m => m

/-- A small universe of dynamically typed Python values, covering the values
flowing through the agent: None, booleans, integers, strings, lists, dicts
with string keys, and two-element tuples. -/
inductive PyVal where
  | none : PyVal
  | bool : Bool → PyVal
  | int : Int → PyVal
  | str : String → PyVal
  | list : List PyVal → PyVal
  | dict : List (String × PyVal) → PyVal
  | pair : PyVal → PyVal → PyVal

/-- Python equality test of a value against a string constant (also covers
comparison with a str-valued Enum member such as ScenarioTask.SAFETY):
true exactly when the value is that string. -/
def pyEqStr (v : PyVal) (s : String) : Bool :=
  match v with
  | .str t => t = s
  | _ => false

/-- Python truthiness of not applied to an Optional bool: not None is true,
not False is true, not True is false. -/
def pyNot (o : Option Bool) : Bool :=
  match o with
  | Option.none => true
  | some b => !b

/-- Python v.get(key) on a dynamically typed value: a dict returns the value
stored under the key (None when absent); any other value has no attribute
named get, so an AttributeError is raised. -/
def pyAttrGet (v : PyVal) (key : String) : Except PyExn PyVal :=
  match v with
  | .dict kvs => .ok (((kvs.find? (fun p => p.1 = key)).map (fun p => p.2)).getD .none)
  | _ => .error (.attributeError "object has no attribute get")

-- ===========================================================================
-- Data model (src/core/models.py)
-- ===========================================================================

/-- ChunkMetadata from src/core/models.py; the type field holds the value of
the str-valued ChunkType enum. -/
structure ChunkMetadata where
  source : String
  type : String
  valid_from : Int := 1900
  expire_at : Int := 9999
  province : String := "ALL"
deriving DecidableEq, Repr

/-- Chunk from src/core/models.py. -/
structure Chunk where
  id : String
  text : String
  metadata : ChunkMetadata
deriving DecidableEq, Repr

/-- SearchResult from src/core/models.py. -/
structure SearchResult where
  chunk : Chunk
  keyword_score : ℚ
  semantic_score : ℚ
  final_score : ℚ
  rank : Nat
deriving DecidableEq, Repr

/-- HybridSearchResults from src/core/models.py. -/
structure HybridSearchResults where
  results : List SearchResult
  total_retrieved : Nat
  temporal_filter_applied : Bool
deriving DecidableEq, Repr

/-- SafetyCheckResult from src/core/models.py. -/
structure SafetyCheckResult where
  is_safe : Bool
  similarity_score : ℚ
  matched_keywords : List String := []
deriving DecidableEq, Repr

-- ===========================================================================
-- Constants (src/core/constants.py)
-- ===========================================================================

def SAFETY_THRESHOLD : ℚ := 85/100

def MAX_CHUNKS_RETRIEVED : Nat := 5

def MIN_RELEVANCE_SCORE : ℚ := 3/10

def BM25_WEIGHT : ℚ := 6/10

def VECTOR_WEIGHT : ℚ := 4/10

-- ===========================================================================
-- Reciprocal Rank Fusion (src/runtime/rag/fusion.py, class RRFFusion)
-- ===========================================================================

/-- Python enumerate(xs, n): pairs each element with its index starting at n. -/
def enumFrom {α : Type} : Nat → List α → List (Nat × α)
  | _, [] => []
  | n, x :: xs => (n, x) :: enumFrom (n + 1) xs

namespace RRFFusion

/-- The rankings dict built by the two loops
bm25_rankings[chunk.id] = (chunk, score, rank) with rank = enumerate(results, 1):
lookup of a chunk id returns the (chunk, score, rank) triple written last
(later writes to the same dict key win). -/
def ranking (results : List (Chunk × ℚ)) (cid : String) : Option (Chunk × ℚ × Nat) :=
  ((enumFrom 1 results).reverse.find? (fun p => p.2.1.id = cid)).map
    (fun p => (p.2.1, p.2.2, p.1))

/-- all_ids = set(bm25_rankings.keys()) | set(vector_rankings.keys()); the set
is embedded as the duplicate-free list of ids in first-occurrence order (the
iteration order of a Python set is not fixed; no theorem below depends on the
order of this list, only on its members). -/
def allIds (bm25 vector : List (Chunk × ℚ)) : List String :=
  ((bm25.map (fun p => p.1.id)) ++ (vector.map (fun p => p.1.id))).dedup

/-- The rank used for a chunk id in one list inside the fusion loop:
its stored rank when the id is present, len(results) + 1 when absent. -/
def effRank (results : List (Chunk × ℚ)) (cid : String) : Nat :=
  match ranking results cid with
  | some t => t.2.2
  | Option.none => results.length + 1

/-- final_score of one chunk id in the fusion loop:
bm25_weight * (1 / (k + bm25_rank)) + vector_weight * (1 / (k + vector_rank)). -/
def fusedScore (wb wv : ℚ) (k : Nat) (bm25 vector : List (Chunk × ℚ)) (cid : String) : ℚ :=
  wb * (1 / ((k : ℚ) + (effRank bm25 cid : ℚ))) +
    wv * (1 / ((k : ℚ) + (effRank vector cid : ℚ)))

/-- Body of the fusion loop for one chunk id: the chunk object and raw scores
are taken from whichever rankings contain the id (0.0 for a missing raw
score); the id of a chunk in neither rankings cannot occur in all_ids and
yields no entry. -/
def fuseEntry (wb wv : ℚ) (k : Nat) (bm25 vector : List (Chunk × ℚ)) (cid : String) :
    Option SearchResult :=
  match ranking bm25 cid, ranking vector cid with
  | some (c, s, _), vt =>
      some { chunk := c, keyword_score := s,
             semantic_score := (vt.map (fun t => t.2.1)).getD 0,
             final_score := fusedScore wb wv k bm25 vector cid, rank := 0 }
  | Option.none, some (c, s, _) =>
      some { chunk := c, keyword_score := 0, semantic_score := s,
             final_score := fusedScore wb wv k bm25 vector cid, rank := 0 }
  | Option.none, Option.none => Option.none

/-- RRFFusion.fuse: build the fused results over all ids, sort descending by
final_score (Python sorted is stable; stability is irrelevant to the theorems
below), truncate to top_k and assign 1-indexed final ranks. -/
def fuse (wb wv : ℚ) (k : Nat) (bm25 vector : List (Chunk × ℚ)) (top_k : Nat) :
    List SearchResult :=
  let entries := (allIds bm25 vector).filterMap (fuseEntry wb wv k bm25 vector)
  let sortedResults := entries.mergeSort (fun a b => decide (b.final_score ≤ a.final_score))
  (enumFrom 1 (sortedResults.take top_k)).map (fun p => { p.2 with rank := p.1 })

end RRFFusion

-- ===========================================================================
-- Temporal filter (src/runtime/rag/temporal_filter.py, class TemporalFilter)
-- ===========================================================================

namespace TemporalFilter

/-- TemporalFilter.filter_chunks: with no query year return the input list
unchanged, otherwise keep the chunks with
chunk.metadata.valid_from <= query_year <= chunk.metadata.expire_at. -/
def filter_chunks (chunks : List Chunk) (query_year : Option Int) : List Chunk :=
  match query_year with
  | Option.none => chunks
  | some y =>
      chunks.filter (fun c =>
        decide (c.metadata.valid_from ≤ y) && decide (y ≤ c.metadata.expire_at))

end TemporalFilter

-- ===========================================================================
-- Hybrid search (src/runtime/rag/hybrid_search.py, class HybridSearchEngine)
-- ===========================================================================

namespace HybridSearchEngine

/-- HybridSearchEngine.search after the two index queries: the bm25 and
vector result lists (whatever the indices returned, empty on any index
failure) are temporally filtered when a year is given, fused with the
default-constructed RRFFusion (bm25_weight 0.6, vector_weight 0.4, k 60),
and filtered by r.final_score >= MIN_RELEVANCE_SCORE. -/
def search (bm25_results vector_results : List (Chunk × ℚ)) (top_k : Nat)
    (temporal_year : Option Int) : HybridSearchResults :=
  let filtered : List (Chunk × ℚ) × List (Chunk × ℚ) × Bool :=
    match temporal_year with
    | Option.none => (bm25_results, vector_results, false)
    | some y =>
        (bm25_results.filter (fun p =>
            decide (p.1.metadata.valid_from ≤ y) && decide (y ≤ p.1.metadata.expire_at)),
         vector_results.filter (fun p =>
            decide (p.1.metadata.valid_from ≤ y) && decide (y ≤ p.1.metadata.expire_at)),
         true)
  let fused := RRFFusion.fuse BM25_WEIGHT VECTOR_WEIGHT 60 filtered.1 filtered.2.1 top_k
  let kept := fused.filter (fun r => decide (MIN_RELEVANCE_SCORE ≤ r.final_score))
  { results := kept, total_retrieved := kept.length,
    temporal_filter_applied := filtered.2.2 }

end HybridSearchEngine

-- ===========================================================================
-- Domain mapper (src/brain/agent/domain_mapper.py, class DomainMapper)
-- ===========================================================================

/-- list(set(d) & set(e)) membership-wise: the duplicate-free list of elements
of d that also occur in e (a Python set has no fixed order; the theorems below
only use membership). -/
def listInter (d e : List String) : List String :=
  d.dedup.filter (fun x => decide (x ∈ e))

namespace DomainMapper

/-- Priority 2 and 3 of DomainMapper.merge_with_entity_categories: use the
entity categories when they are present and non-empty, otherwise no filter. -/
def entityFallback (entity_categories : Option (List String)) : Option (List String) :=
  match entity_categories with
  | some e => if e.length > 0 then some e else Option.none
  | Option.none => Option.none

/-- DomainMapper.merge_with_entity_categories. -/
def merge_with_entity_categories (domain_categories entity_categories : Option (List String)) :
    Option (List String) :=
  match domain_categories with
  | some d =>
      if d.length > 0 then
        match entity_categories with
        | some e =>
            if e.length > 0 then
              let intersection := listInter d e
              if intersection.length > 0 then some intersection else some d
            else some d
        | Option.none => some d
      else entityFallback entity_categories
  | Option.none => entityFallback entity_categories

end DomainMapper

-- ===========================================================================
-- Embedded numpy primitives (np.dot, np.max, np.argmax, list indexing)
-- ===========================================================================

/-- Dot product of two equal-length vectors. -/
def dotQ (xs ys : List ℚ) : ℚ :=
  ((xs.zip ys).map (fun p => p.1 * p.2)).sum

/-- np.dot of a 2-d matrix with a vector: one dot product per row; raises
ValueError when the shapes are not aligned (row length differs from the
vector length). -/
def npDotMatVec (m : List (List ℚ)) (v : List ℚ) : Except PyExn (List ℚ) :=
  if m.all (fun row => row.length = v.length) then
    .ok (m.map (fun row => dotQ row v))
  else .error (.valueError "shapes not aligned")

/-- np.max: maximum of a sequence, ValueError on an empty one. -/
def npMax (xs : List ℚ) : Except PyExn ℚ :=
  match xs with
  | [] => .error (.valueError "zero-size array to reduction operation maximum")
  | x :: rest => .ok (rest.foldl max x)

/-- Auxiliary scan keeping the index of the first strictly greatest element. -/
def argmaxAux : List ℚ → Nat → Nat → ℚ → Nat
  | [], _, best, _ => best
  | x :: rest, i, best, bestV =>
      if bestV < x then argmaxAux rest (i + 1) i x else argmaxAux rest (i + 1) best bestV

/-- np.argmax: index of the first maximal element, ValueError on empty input. -/
def npArgmax (xs : List ℚ) : Except PyExn Nat :=
  match xs with
  | [] => .error (.valueError "attempt to get argmax of an empty sequence")
  | x :: rest => .ok (argmaxAux rest 1 0 x)

/-- Python list indexing xs[i]: IndexError when out of range. -/
def pyListGet {α : Type} (xs : List α) (i : Nat) : Except PyExn α :=
  match xs.get? i with
  | some a => .ok a
  | Option.none => .error (.indexError "list index out of range")

-- ===========================================================================
-- Safety firewall (src/runtime/safety/guard.py, class SafetyGuard)
-- ===========================================================================

namespace SafetyGuard

/-- SafetyGuard.check, from the point where the query embedding is available
(self.llm_service.embed is the injected capability; a raising or falsy result
is passed here as Option.none or an empty list). The L2 normalisation
query_vec / (np.linalg.norm(query_vec) + 1e-10) involves a real square root,
so it is abstracted as the function parameter normalize, applied to the query
vector and to every row of the bank exactly as in the source; normalisation
preserves vector length, which is the only property the theorems use.
The cosine similarities are np.dot(query_norm, safety_norm.T) and the result
is is_safe = max_similarity < self.threshold. -/
def check (normalize : List ℚ → List ℚ) (query_embedding : Option (List ℚ))
    (safety_vectors : Option (List (List ℚ))) (threshold : ℚ) :
    Except PyExn SafetyCheckResult :=
  match query_embedding with
  | Option.none => .ok { is_safe := true, similarity_score := 0 }
  | some emb =>
      if emb.isEmpty then .ok { is_safe := true, similarity_score := 0 }
      else
        match safety_vectors with
        | Option.none => .ok { is_safe := true, similarity_score := 0 }
        | some bank =>
            match npDotMatVec (bank.map normalize) (normalize emb) with
            | .error e => .error e
            | .ok similarities =>
                match npMax similarities with
                | .error e => .error e
                | .ok max_similarity =>
                    .ok { is_safe := decide (max_similarity < threshold),
                          similarity_score := max_similarity }

end SafetyGuard

-- ===========================================================================
-- Guardrail service (src/brain/agent/guardrail.py, class GuardrailService)
-- ===========================================================================

namespace GuardrailService

/-- self.safety_threshold set in GuardrailService init. -/
def safety_threshold : ℚ := 7/10

/-- GuardrailService parse_json_answer_robust. The composite of
re.search of a brace-delimited region and json.loads is the Python standard
library, abstracted as the parameter findJson; when it succeeds it yields the
key-value pairs of the parsed JSON object. The source returns the tuple
(True, data[\x22answer\x22]) on success and (False, str(e)) or
(False, \x22No JSON found in response\x22) on failure, all exceptions caught. -/
def parse_json_answer_robust
    (findJson : String → Except PyExn (Option (List (String × PyVal))))
    (text : String) : Bool × PyVal :=
  match findJson text with
  | .error e => (false, .str e.message)
  | .ok Option.none => (false, .str "No JSON found in response")
  | .ok (some kvs) =>
      match kvs.find? (fun p => p.1 = "answer") with
      | some p => (true, p.2)
      | Option.none => (false, .str "answer")

/-- GuardrailService.invoke. The outer try block re-raises every exception,
so exceptions inside the embedding check propagate unchanged; the inner try
around the generate call catches its exceptions and degrades to the string
result. The llm generate call for the safety selector prompt is the injected
capability generate. is_safe keeps the Python Optional bool (None when
neither the caller nor the embedding check set it). -/
def invoke (safety_index : List (List ℚ)) (safety_queries : List String)
    (generate : Except PyExn String)
    (findJson : String → Except PyExn (Option (List (String × PyVal))))
    (user_input : Option String) (is_safe0 : Option Bool)
    (embedding : Option (List ℚ)) (_options : List (String × String)) :
    Except PyExn (Option Bool × PyVal) :=
  let afterCheck : Except PyExn (Option Bool) :=
    match embedding with
    | Option.none => .ok is_safe0
    | some emb =>
        match npDotMatVec safety_index emb with
        | .error e => .error e
        | .ok scores =>
            match npMax scores with
            | .error e => .error e
            | .ok max_score =>
                if safety_threshold < max_score then
                  match npArgmax scores with
                  | .error e => .error e
                  | .ok max_score_idx =>
                      match pyListGet safety_queries max_score_idx with
                      | .error e => .error e
                      | .ok _matched_query => .ok (some false)
                else .ok (some true)
  match afterCheck with
  | .error e => .error e
  | .ok is_safe =>
      if user_input.isSome && pyNot is_safe then
        match generate with
        | .error _ => .ok (is_safe, .str "Error parsing JSON answer")
        | .ok response_text =>
            let result := parse_json_answer_robust findJson response_text
            .ok (is_safe, .pair (.bool result.1) result.2)
      else .ok (is_safe, .str "No checks performed")

end GuardrailService

-- ===========================================================================
-- Query classification (src/brain/agent/query_classification.py)
-- ===========================================================================

namespace QueryClassificationService

/-- The default classification returned by invoke when any step raises. -/
def defaultInvokeError : List (String × PyVal) :=
  [("category", .str "RAG"), ("domain", .str "General Knowledge"),
   ("temporal_constraint", .none),
   ("reasoning", .str "Error invoking Query Classification Service"),
   ("key_entities", .list [])]

/-- The default passed to parse_json_from_llm_response inside
parse_json_answer_robust. -/
def defaultParseError : List (String × PyVal) :=
  [("category", .str "RAG"), ("domain", .str "General Knowledge"),
   ("temporal_constraint", .none), ("reasoning", .str "JSON Parsing Error"),
   ("key_entities", .list [])]

/-- parse_json_from_llm_response (src/brain/utils/json_parser.py): the parsed
JSON object when the regex finds one and json.loads succeeds, otherwise the
supplied default (a brace-delimited match can only parse to a JSON object, so
a successful findJson always yields key-value pairs). -/
def parse_json_from_llm_response
    (findJson : String → Except PyExn (Option (List (String × PyVal))))
    (text : String) (dflt : List (String × PyVal)) : List (String × PyVal) :=
  match findJson text with
  | .ok (some kvs) => kvs
  | .ok Option.none => dflt
  | .error _ => dflt

/-- QueryClassificationService parse_json_answer_robust: parse with the
default above, then set a domain from the category only when the domain key
is missing (the category key itself is never added). -/
def parse_json_answer_robust
    (findJson : String → Except PyExn (Option (List (String × PyVal))))
    (text : String) : List (String × PyVal) :=
  let d := parse_json_from_llm_response findJson text defaultParseError
  if (d.find? (fun p => p.1 = "domain")).isNone then
    let category := ((d.find? (fun p => p.1 = "category")).map (fun p => p.2)).getD (.str "RAG")
    if pyEqStr category "MATH" then d ++ [("domain", .str "Math")]
    else if pyEqStr category "RAG" then d ++ [("domain", .str "General Knowledge")]
    else d
  else d

/-- QueryClassificationService.invoke: generate with the classification
prompt and parse; every exception is caught and yields the default
classification, so invoke never raises. -/
def invoke (generate : Except PyExn String)
    (findJson : String → Except PyExn (Option (List (String × PyVal)))) :
    List (String × PyVal) :=
  match generate with
  | .error _ => defaultInvokeError
  | .ok text => parse_json_answer_robust findJson text

end QueryClassificationService

-- ===========================================================================
-- Math task (src/brain/agent/tasks/math.py) and answer extraction
-- (src/brain/utils/json_parser.py, extract_answer_from_response)
-- ===========================================================================

/-- Python str() of a dynamically typed value. The exact textual form of the
repr of containers is not observed by any theorem in this file. -/
def pyStrOf : PyVal → String
  | .str s => s
  | .bool b => if b then "True" else "False"
  | .int n => toString n
  | .none => "None"
  | .list _ => "<list repr>"
  | .dict _ => "<dict repr>"
  | .pair _ _ => "<tuple repr>"

/-- Python substring containment needle in hay (for non-empty needles, which
is the only use below). -/
def strContains (hay needle : String) : Bool :=
  (hay.splitOn needle).length > 1

/-- sorted(options.keys()): the option keys in Python lexicographic
(code-point) order. -/
def sortedKeys (options : List (String × String)) : List String :=
  (options.map (fun p => p.1)).mergeSort (fun a b => decide (a ≤ b))

/-- extract_answer_from_response (src/brain/utils/json_parser.py): JSON
answer field when present and a valid option key, else the first quoted
option letter found in the upper-cased text, else the first sorted option
key (or the default answer when there are no options). -/
def extract_answer_from_response
    (findJson : String → Except PyExn (Option (List (String × PyVal))))
    (text : String) (options : List (String × String))
    (default_answer : String := "A") : List (String × PyVal) :=
  let parsed : List (String × PyVal) :=
    match findJson text with
    | .ok (some kvs) => kvs
    | _ => []
  let fromJson : Option String :=
    if parsed.isEmpty then Option.none
    else match parsed.find? (fun p => p.1 = "answer") with
      | some p =>
          let answer := (pyStrOf p.2).toUpper.trim
          if options.any (fun q => q.1 = answer) then some answer else Option.none
      | Option.none => Option.none
  match fromJson with
  | some a => [("answer", .str a)]
  | Option.none =>
      let text_upper := text.toUpper
      match (sortedKeys options).find? (fun l =>
          strContains text_upper ("\"" ++ l ++ "\"") ||
          strContains text_upper ("\x27" ++ l ++ "\x27")) with
      | some l => [("answer", .str l)]
      | Option.none =>
          [("answer", .str (match sortedKeys options with
            | [] => default_answer
            | k :: _ => k))]

namespace MathTask

/-- MathTask.invoke: generate with the math or chemistry prompt and extract
the answer; every exception is caught and yields answer A, so invoke never
raises (the domain argument only selects the prompt and is not observable
here). -/
def invoke (generate : Except PyExn String)
    (findJson : String → Except PyExn (Option (List (String × PyVal))))
    (options : List (String × String)) : List (String × PyVal) :=
  match generate with
  | .error _ => [("answer", .str "A")]
  | .ok text => extract_answer_from_response findJson text options

end MathTask

-- ===========================================================================
-- Query router (src/brain/agent/agent.py, class Agent)
-- ===========================================================================

/-- The per-query behaviour of the injected capabilities and loaded state
consumed by one Agent.process_query call: the guardrail state loaded at
startup (safety index matrix and parallel safety query texts), the outcome
of llm_service.get_embedding for the query, the outcomes of the generate
calls made by the guardrail, the classification service and the math task,
and the standard-library JSON extraction recipe shared by all the robust
parsers. -/
structure AgentDeps where
  safetyIndex : List (List ℚ)
  safetyQueries : List String
  getEmbedding : Except PyExn (Option (List ℚ))
  guardGenerate : Except PyExn String
  classifyGenerate : Except PyExn String
  mathGenerate : Except PyExn String
  findJson : String → Except PyExn (Option (List (String × PyVal)))

namespace Agent

/-- Layer 1 of Agent process_query_internal (the fast safety check): get the
query embedding and run the guardrail on it; a falsy embedding skips the
guardrail, and any exception in this block is caught (non-blocking) and
replaced by the pair (True, empty dict). -/
def agentLayer1 (deps : AgentDeps) (query : String) (options : List (String × String)) :
    Option Bool × PyVal :=
  match deps.getEmbedding with
  | .error _ => (some true, .dict [])
  | .ok Option.none => (some true, .dict [])
  | .ok (some emb) =>
      if emb.isEmpty then (some true, .dict [])
      else
        match GuardrailService.invoke deps.safetyIndex deps.safetyQueries
            deps.guardGenerate deps.findJson (some query) Option.none (some emb) options with
        | .error _ => (some true, .dict [])
        | .ok r => r

/-- The answer validity test of the guardrail-blocked branch:
guardrail_answer.get(\x22answer\x22) not in [None, \x22None\x22, \x22\x22]. -/
def answerNotInBadList (v : PyVal) : Bool :=
  match v with
  | .none => false
  | .str "None" => false
  | .str "" => false
  | _ => true

/-- sorted(options.keys())[0]: first sorted option key, IndexError when the
option dict is empty (this subscript is unguarded inside
process_query_internal). -/
def sortedKeysFirst (options : List (String × String)) : Except PyExn String :=
  match sortedKeys options with
  | [] => .error (.indexError "list index out of range")
  | k :: _ => .ok k

/-- Agent process_query_internal. Layer 1 is the guarded safety check; when
the guardrail blocked the query, a dict-valued guardrail answer with a valid
answer value is returned, any other shape of answer value makes the
get attribute access raise AttributeError. Layer 2 is the classification
service, which never raises; the category lookup itself raises KeyError when
the parsed classification has no category key. Layer 3 dispatches on the
category: the SAFETY, READING and RAG branches call
GuardrailService.invoke, ReadingTask.invoke and RAGTask.invoke with a
keyword argument verbose that none of those signatures accepts, so those
calls raise TypeError; the MATH branch calls MathTask.invoke, whose
signature does accept verbose; an unrecognised category yields the literal
answer A. The outer try block of process_query_internal re-raises every
exception, so all these exceptions propagate. -/
def process_query_internal (deps : AgentDeps) (query : String)
    (options : List (String × String)) : Except PyExn PyVal :=
  let layer1 := agentLayer1 deps query options
  let is_safe := layer1.1
  let guardrail_answer := layer1.2
  if pyNot is_safe then
    match pyAttrGet guardrail_answer "answer" with
    | .error e => .error e
    | .ok v =>
        if answerNotInBadList v then .ok guardrail_answer
        else
          match sortedKeysFirst options with
          | .error e => .error e
          | .ok k => .ok (.dict [("answer", .str k)])
  else
    let classification := QueryClassificationService.invoke deps.classifyGenerate deps.findJson
    match classification.find? (fun p => p.1 = "category") with
    | Option.none => .error (.keyError "category")
    | some p =>
        let category := p.2
        if pyEqStr category "SAFETY" then
          .error (.typeError "invoke() got an unexpected keyword argument verbose")
        else if pyEqStr category "MATH" then
          .ok (.dict (MathTask.invoke deps.mathGenerate deps.findJson options))
        else if pyEqStr category "READING" then
          .error (.typeError "invoke() got an unexpected keyword argument verbose")
        else if pyEqStr category "RAG" then
          .error (.typeError "invoke() got an unexpected keyword argument verbose")
        else
          .ok (.dict [("answer", .str "A")])

/-- Agent.process_query: the internal processing runs under
asyncio.wait_for; the timedOut flag tells whether the timeout fired before
it completed. On TimeoutError the fallback answer
sorted(options.keys())[0] if options else A is returned; every other
exception is re-raised. -/
def process_query (deps : AgentDeps) (query : String)
    (options : List (String × String)) (timedOut : Bool) : Except PyExn PyVal :=
  if timedOut then
    .ok (.dict [("answer", .str (match sortedKeys options with
      | [] => "A"
      | k :: _ => k))])
  else process_query_internal deps query options

end Agent

-- ===========================================================================
-- Helper lemmas
-- ===========================================================================

theorem mem_enumFrom {α : Type} {p : Nat × α} :
    ∀ {n : Nat} {xs : List α}, p ∈ enumFrom n xs → n ≤ p.1 ∧ p.1 < n + xs.length ∧ p.2 ∈ xs := by
  intro n xs
  induction xs generalizing n with
  | nil => intro h; cases h
  | cons x xs ih =>
      intro h
      rcases List.mem_cons.mp h with h | h
      · subst h
        refine ⟨Nat.le_refl _, ?_, List.mem_cons_self x xs⟩
        rw [List.length_cons]
        omega
      · rcases ih h with ⟨h1, h2, h3⟩
        refine ⟨by omega, ?_, List.mem_cons_of_mem x h3⟩
        rw [List.length_cons]
        omega

theorem ranking_rank_bounds {results : List (Chunk × ℚ)} {cid : String}
    {c : Chunk} {s : ℚ} {r : Nat} (h : RRFFusion.ranking results cid = some (c, s, r)) :
    1 ≤ r ∧ r ≤ results.length := by
  unfold RRFFusion.ranking at h
  rcases hf : (enumFrom 1 results).reverse.find? (fun p => p.2.1.id = cid) with _ | p
  · rw [hf] at h; cases h
  · rw [hf] at h
    have hmem : p ∈ (enumFrom 1 results).reverse := List.mem_of_find?_eq_some hf
    have hmem' : p ∈ enumFrom 1 results := by simpa using hmem
    rcases mem_enumFrom hmem' with ⟨h1, h2, _⟩
    have h' : (p.2.1, p.2.2, p.1) = (c, s, r) := by
      simpa using h
    have hr : r = p.1 := by
      have := congrArg (fun t => t.2.2) h'
      simpa using this.symm
    subst hr
    exact ⟨h1, by omega⟩

theorem ranking_some_ne_nil {results : List (Chunk × ℚ)} {cid : String}
    {t : Chunk × ℚ × Nat} (h : RRFFusion.ranking results cid = some t) :
    1 ≤ results.length := by
  obtain ⟨c, s, r⟩ := t
  rcases ranking_rank_bounds h with ⟨h1, h2⟩
  exact le_trans h1 h2

theorem effRank_pos (results : List (Chunk × ℚ)) (cid : String) :
    1 ≤ RRFFusion.effRank results cid := by
  rcases h : RRFFusion.ranking results cid with _ | ⟨c, s, r⟩
  · simp [RRFFusion.effRank, h]
  · simpa [RRFFusion.effRank, h] using (ranking_rank_bounds h).1

theorem rrf_term_antitone (k r r2 : Nat) (h1 : 1 ≤ r) (h2 : r ≤ r2) :
    (1 : ℚ) / ((k : ℚ) + (r2 : ℚ)) ≤ 1 / ((k : ℚ) + (r : ℚ)) := by
  have hk : (0 : ℚ) ≤ (k : ℚ) := Nat.cast_nonneg k
  have hr : (1 : ℚ) ≤ (r : ℚ) := by exact_mod_cast h1
  have hpos : (0 : ℚ) < (k : ℚ) + (r : ℚ) := by linarith
  have hle : (k : ℚ) + (r : ℚ) ≤ (k : ℚ) + (r2 : ℚ) := by
    have : (r : ℚ) ≤ (r2 : ℚ) := by exact_mod_cast h2
    linarith
  exact one_div_le_one_div_of_le hpos hle

theorem rrf_term_le (k r : Nat) (h1 : 1 ≤ r) :
    (1 : ℚ) / ((k : ℚ) + (r : ℚ)) ≤ 1 / ((k : ℚ) + 1) := by
  have := rrf_term_antitone k 1 r (Nat.le_refl 1) h1
  simpa using this

theorem rrf_term_pos {k r : Nat} (h1 : 1 ≤ r) :
    (0 : ℚ) < 1 / ((k : ℚ) + (r : ℚ)) := by
  have hk : (0 : ℚ) ≤ (k : ℚ) := Nat.cast_nonneg k
  have hr : (1 : ℚ) ≤ (r : ℚ) := by exact_mod_cast h1
  have hpos : (0 : ℚ) < (k : ℚ) + (r : ℚ) := by linarith
  positivity

/-- Every fused score is at most wb / (k + 1) + wv / (k + 1), since both
effective ranks are at least one. -/
theorem fusedScore_le (wb wv : ℚ) (hwb : 0 ≤ wb) (hwv : 0 ≤ wv) (k : Nat)
    (bm25 vector : List (Chunk × ℚ)) (cid : String) :
    RRFFusion.fusedScore wb wv k bm25 vector cid ≤
      wb * (1 / ((k : ℚ) + 1)) + wv * (1 / ((k : ℚ) + 1)) := by
  unfold RRFFusion.fusedScore
  have h1 := rrf_term_le k (RRFFusion.effRank bm25 cid) (effRank_pos bm25 cid)
  have h2 := rrf_term_le k (RRFFusion.effRank vector cid) (effRank_pos vector cid)
  have := mul_le_mul_of_nonneg_left h1 hwb
  have := mul_le_mul_of_nonneg_left h2 hwv
  linarith

/-- Every element of the fused output list carries the fused score of some
chunk id. -/
theorem mem_fuse_final_score {wb wv : ℚ} {k : Nat}
    {bm25 vector : List (Chunk × ℚ)} {top_k : Nat} {r : SearchResult}
    (h : r ∈ RRFFusion.fuse wb wv k bm25 vector top_k) :
    ∃ cid, r.final_score = RRFFusion.fusedScore wb wv k bm25 vector cid := by
  unfold RRFFusion.fuse at h
  rcases List.mem_map.mp h with ⟨p, hp, hr⟩
  have hsc : r.final_score = p.2.final_score := by
    subst hr; rfl
  have hp2 : p.2 ∈ (((RRFFusion.allIds bm25 vector).filterMap
      (RRFFusion.fuseEntry wb wv k bm25 vector)).mergeSort
        (fun a b => decide (b.final_score ≤ a.final_score))).take top_k :=
    (mem_enumFrom hp).2.2
  have hp3 := List.mem_mergeSort.mp (List.mem_of_mem_take hp2)
  rcases List.mem_filterMap.mp hp3 with ⟨cid, _, hcid⟩
  refine ⟨cid, ?_⟩
  rw [hsc]
  unfold RRFFusion.fuseEntry at hcid
  rcases hb : RRFFusion.ranking bm25 cid with _ | ⟨c, s, rk⟩ <;>
    rcases hv : RRFFusion.ranking vector cid with _ | ⟨c', s', rk'⟩ <;>
      rw [hb, hv] at hcid
  · exact Option.noConfusion hcid
  · exact (congrArg SearchResult.final_score (Option.some.inj hcid)).symm
  · exact (congrArg SearchResult.final_score (Option.some.inj hcid)).symm
  · exact (congrArg SearchResult.final_score (Option.some.inj hcid)).symm

theorem rrf_term_lt (k r2 : Nat) (h : 2 ≤ r2) :
    (1 : ℚ) / ((k : ℚ) + (r2 : ℚ)) < 1 / ((k : ℚ) + 1) := by
  have hk : (0 : ℚ) ≤ (k : ℚ) := Nat.cast_nonneg k
  have hr : (2 : ℚ) ≤ (r2 : ℚ) := by exact_mod_cast h
  have hpos : (0 : ℚ) < (k : ℚ) + 1 := by linarith
  have hlt : (k : ℚ) + 1 < (k : ℚ) + (r2 : ℚ) := by linarith
  exact one_div_lt_one_div_of_lt hpos hlt

/-- The fused output of the default-weight fusion, filtered by the minimum
relevance threshold, is always empty: every fused score is at most 1/61. -/
theorem fuse_min_relevance_filter_empty (b v : List (Chunk × ℚ)) (top_k : Nat) :
    (RRFFusion.fuse BM25_WEIGHT VECTOR_WEIGHT 60 b v top_k).filter
      (fun r => decide (MIN_RELEVANCE_SCORE ≤ r.final_score)) = [] := by
  rw [List.filter_eq_nil_iff]
  intro r hr
  rcases mem_fuse_final_score hr with ⟨cid, hcid⟩
  have hb := fusedScore_le BM25_WEIGHT VECTOR_WEIGHT
    (by norm_num [BM25_WEIGHT]) (by norm_num [VECTOR_WEIGHT]) 60 b v cid
  have hlt : RRFFusion.fusedScore BM25_WEIGHT VECTOR_WEIGHT 60 b v cid < MIN_RELEVANCE_SCORE := by
    have : BM25_WEIGHT * (1 / ((60 : ℚ) + 1)) + VECTOR_WEIGHT * (1 / ((60 : ℚ) + 1))
        < MIN_RELEVANCE_SCORE := by
      norm_num [BM25_WEIGHT, VECTOR_WEIGHT, MIN_RELEVANCE_SCORE]
    calc RRFFusion.fusedScore BM25_WEIGHT VECTOR_WEIGHT 60 b v cid
        ≤ BM25_WEIGHT * (1 / ((60 : ℚ) + 1)) + VECTOR_WEIGHT * (1 / ((60 : ℚ) + 1)) := by
          exact_mod_cast hb
      _ < MIN_RELEVANCE_SCORE := this
  simp only [decide_eq_true_eq, not_le]
  rw [hcid]
  exact hlt

-- ===========================================================================
-- Claim theorems
-- ===========================================================================

/-- C2: under the default configuration (RRF constant k = 60, weights 0.6 and
0.4, MIN_RELEVANCE_SCORE = 0.3), HybridSearchEngine.search returns an empty
result list for every query, chunk store and pair of index results: every
fused score is at most 0.6/61 + 0.4/61 = 1/61, strictly below the
minimum-relevance threshold 0.3, so the post-fusion relevance filter removes
every candidate. -/
theorem C2_hybrid_search_always_empty (bm25_results vector_results : List (Chunk × ℚ))
    (top_k : Nat) (temporal_year : Option Int) :
    (HybridSearchEngine.search bm25_results vector_results top_k temporal_year).results = [] := by
  cases temporal_year with
  | none => exact fuse_min_relevance_filter_empty _ _ _
  | some y => exact fuse_min_relevance_filter_empty _ _ _

/-- A laboratory chunk whose id is the only relevant feature. -/
def chunkOf (i : String) : Chunk :=
  { id := i, text := "", metadata := { source := "", type := "GENERAL" } }

def c6bm25 : List (Chunk × ℚ) := [(chunkOf "a", 9), (chunkOf "b", 5)]

def c6vector : List (Chunk × ℚ) := [(chunkOf "b", 4), (chunkOf "x", 1)]

/-- C6 counterexample: with the default non-negative weights 0.6/0.4 and
k = 60, chunk a ranks strictly higher than chunk b in the bm25 list, which is
the only list in which both appear (a is absent from the vector list), yet
the fused score of a is strictly below the fused score of b: the claimed
monotonicity fails because a chunk absent from a list still receives a
contribution from it at rank len(list) + 1. -/
theorem C6_counterexample_rank_monotonicity_fails :
    RRFFusion.ranking c6bm25 "a" = some (chunkOf "a", 9, 1) ∧
    RRFFusion.ranking c6bm25 "b" = some (chunkOf "b", 5, 2) ∧
    RRFFusion.ranking c6vector "a" = Option.none ∧
    RRFFusion.fusedScore BM25_WEIGHT VECTOR_WEIGHT 60 c6bm25 c6vector "a" <
      RRFFusion.fusedScore BM25_WEIGHT VECTOR_WEIGHT 60 c6bm25 c6vector "b" := by
  refine ⟨rfl, rfl, rfl, ?_⟩
  have h1 : RRFFusion.effRank c6bm25 "a" = 1 := rfl
  have h2 : RRFFusion.effRank c6vector "a" = 3 := rfl
  have h3 : RRFFusion.effRank c6bm25 "b" = 2 := rfl
  have h4 : RRFFusion.effRank c6vector "b" = 1 := rfl
  rw [RRFFusion.fusedScore, RRFFusion.fusedScore, h1, h2, h3, h4]
  norm_num [BM25_WEIGHT, VECTOR_WEIGHT]

/-- C6 amended: monotonicity holds for the effective ranks the code actually
assigns (the stored 1-indexed rank when the chunk is present in a list, list
length + 1 when absent): if the effective rank of a is at most the effective
rank of b in both lists, the fused score of a is at least the fused score of
b, for all non-negative weights. -/
theorem C6_amended_effective_rank_monotonicity (wb wv : ℚ) (k : Nat)
    (bm25 vector : List (Chunk × ℚ)) (a b : String)
    (hwb : 0 ≤ wb) (hwv : 0 ≤ wv)
    (h1 : RRFFusion.effRank bm25 a ≤ RRFFusion.effRank bm25 b)
    (h2 : RRFFusion.effRank vector a ≤ RRFFusion.effRank vector b) :
    RRFFusion.fusedScore wb wv k bm25 vector b ≤
      RRFFusion.fusedScore wb wv k bm25 vector a := by
  unfold RRFFusion.fusedScore
  have t1 := rrf_term_antitone k (RRFFusion.effRank bm25 a) (RRFFusion.effRank bm25 b)
    (effRank_pos bm25 a) h1
  have t2 := rrf_term_antitone k (RRFFusion.effRank vector a) (RRFFusion.effRank vector b)
    (effRank_pos vector a) h2
  have m1 := mul_le_mul_of_nonneg_left t1 hwb
  have m2 := mul_le_mul_of_nonneg_left t2 hwv
  linarith

theorem C6_amended_witness :
    (0 : ℚ) ≤ BM25_WEIGHT ∧ (0 : ℚ) ≤ VECTOR_WEIGHT ∧
    RRFFusion.effRank c6bm25 "b" ≤ RRFFusion.effRank c6bm25 "x" ∧
    RRFFusion.effRank c6vector "b" ≤ RRFFusion.effRank c6vector "x" ∧
    RRFFusion.fusedScore BM25_WEIGHT VECTOR_WEIGHT 60 c6bm25 c6vector "x" ≤
      RRFFusion.fusedScore BM25_WEIGHT VECTOR_WEIGHT 60 c6bm25 c6vector "b" :=
  ⟨by norm_num [BM25_WEIGHT], by norm_num [VECTOR_WEIGHT],
   by decide, by decide,
   C6_amended_effective_rank_monotonicity BM25_WEIGHT VECTOR_WEIGHT 60 c6bm25 c6vector "b" "x"
     (by norm_num [BM25_WEIGHT]) (by norm_num [VECTOR_WEIGHT]) (by decide) (by decide)⟩

def c7bm25 : List (Chunk × ℚ) := [(chunkOf "c1", 1)]

/-- C7 counterexample: chunk c1 appears only in the bm25 list (at rank 1) and
is absent from the empty vector list, so by the claim its fused score would
be the bm25 contribution alone, BM25_WEIGHT * 1/61; the code instead also
adds a vector contribution at rank len(vector) + 1 = 1, giving
0.6/61 + 0.4/61 = 1/61. -/
theorem C7_counterexample_absent_list_contributes :
    RRFFusion.ranking c7bm25 "c1" = some (chunkOf "c1", 1, 1) ∧
    RRFFusion.ranking ([] : List (Chunk × ℚ)) "c1" = Option.none ∧
    RRFFusion.fusedScore BM25_WEIGHT VECTOR_WEIGHT 60 c7bm25 [] "c1" = 1/61 ∧
    RRFFusion.fusedScore BM25_WEIGHT VECTOR_WEIGHT 60 c7bm25 [] "c1" ≠
      BM25_WEIGHT * (1/61) := by
  refine ⟨rfl, rfl, ?_, ?_⟩ <;>
  · have h1 : RRFFusion.effRank c7bm25 "c1" = 1 := rfl
    have h2 : RRFFusion.effRank ([] : List (Chunk × ℚ)) "c1" = 1 := rfl
    rw [RRFFusion.fusedScore, h1, h2]
    norm_num [BM25_WEIGHT, VECTOR_WEIGHT]

/-- C7 amended: each chunk present in a list is assigned a 1-indexed rank
bounded by the list length, but a chunk absent from one of the two lists
receives a non-zero contribution from that list at rank len(list) + 1: for a
chunk present in bm25 at rank r and absent from the vector list, the fused
score is wb/(k + r) + wv/(k + len(vector) + 1), not the bm25 term alone. -/
theorem C7_amended_absent_rank_contribution (wb wv : ℚ) (k : Nat)
    (bm25 vector : List (Chunk × ℚ)) (cid : String) (c : Chunk) (s : ℚ) (r : Nat)
    (hb : RRFFusion.ranking bm25 cid = some (c, s, r))
    (hv : RRFFusion.ranking vector cid = Option.none) :
    (1 ≤ r ∧ r ≤ bm25.length) ∧
    RRFFusion.fusedScore wb wv k bm25 vector cid =
      wb * (1 / ((k : ℚ) + (r : ℚ))) +
        wv * (1 / ((k : ℚ) + (vector.length : ℚ) + 1)) := by
  refine ⟨ranking_rank_bounds hb, ?_⟩
  unfold RRFFusion.fusedScore RRFFusion.effRank
  rw [hb, hv]
  push_cast
  ring

theorem C7_amended_witness :
    RRFFusion.ranking c7bm25 "c1" = some (chunkOf "c1", 1, 1) ∧
    RRFFusion.ranking ([] : List (Chunk × ℚ)) "c1" = Option.none ∧
    ((1 ≤ 1 ∧ 1 ≤ c7bm25.length) ∧
      RRFFusion.fusedScore BM25_WEIGHT VECTOR_WEIGHT 60 c7bm25 [] "c1" =
        BM25_WEIGHT * (1 / ((60 : ℚ) + (1 : ℚ))) +
          VECTOR_WEIGHT * (1 / ((60 : ℚ) + (([] : List (Chunk × ℚ)).length : ℚ) + 1))) :=
  ⟨rfl, rfl,
   C7_amended_absent_rank_contribution BM25_WEIGHT VECTOR_WEIGHT 60 c7bm25 []
     "c1" (chunkOf "c1") 1 1 rfl rfl⟩

/-- C8: a chunk with rank 1 in both the bm25 and the vector rankings has a
strictly higher fused score than any chunk present in only one of the two
lists, for every weight configuration with both weights strictly positive
(the chunk present in both lists forces both lists to be non-empty, so the
absent-list contribution of the other chunk is strictly smaller than a rank-1
contribution). -/
theorem C8_presence_bonus (wb wv : ℚ) (k : Nat) (bm25 vector : List (Chunk × ℚ))
    (aId cId : String) (ca cv : Chunk) (sa sv : ℚ)
    (hwb : 0 < wb) (hwv : 0 < wv)
    (ha1 : RRFFusion.ranking bm25 aId = some (ca, sa, 1))
    (ha2 : RRFFusion.ranking vector aId = some (cv, sv, 1))
    (hc : ((∃ t, RRFFusion.ranking bm25 cId = some t) ∧
            RRFFusion.ranking vector cId = Option.none) ∨
          (RRFFusion.ranking bm25 cId = Option.none ∧
            (∃ t, RRFFusion.ranking vector cId = some t))) :
    RRFFusion.fusedScore wb wv k bm25 vector cId <
      RRFFusion.fusedScore wb wv k bm25 vector aId := by
  have ea1 : RRFFusion.effRank bm25 aId = 1 := by simp [RRFFusion.effRank, ha1]
  have ea2 : RRFFusion.effRank vector aId = 1 := by simp [RRFFusion.effRank, ha2]
  have hwb' : (0 : ℚ) ≤ wb := le_of_lt hwb
  have hwv' : (0 : ℚ) ≤ wv := le_of_lt hwv
  rcases hc with ⟨⟨t, hcb⟩, hcv⟩ | ⟨hcb, ⟨t, hcv⟩⟩
  · obtain ⟨c, s, rc⟩ := t
    have ecb : RRFFusion.effRank bm25 cId = rc := by simp [RRFFusion.effRank, hcb]
    have ecv : RRFFusion.effRank vector cId = vector.length + 1 := by
      simp [RRFFusion.effRank, hcv]
    have hrc : 1 ≤ rc := (ranking_rank_bounds hcb).1
    have hvlen : 1 ≤ vector.length := ranking_some_ne_nil ha2
    have t1 : (1 : ℚ) / ((k : ℚ) + (rc : ℚ)) ≤ 1 / ((k : ℚ) + 1) := rrf_term_le k rc hrc
    have t2 : (1 : ℚ) / ((k : ℚ) + ((vector.length + 1 : Nat) : ℚ)) < 1 / ((k : ℚ) + 1) :=
      rrf_term_lt k (vector.length + 1) (by omega)
    have m1 := mul_le_mul_of_nonneg_left t1 hwb'
    have m2 := mul_lt_mul_of_pos_left t2 hwv
    unfold RRFFusion.fusedScore
    rw [ea1, ea2, ecb, ecv]
    push_cast at m1 m2 ⊢
    linarith
  · obtain ⟨c, s, rc⟩ := t
    have ecb : RRFFusion.effRank bm25 cId = bm25.length + 1 := by
      simp [RRFFusion.effRank, hcb]
    have ecv : RRFFusion.effRank vector cId = rc := by simp [RRFFusion.effRank, hcv]
    have hrc : 1 ≤ rc := (ranking_rank_bounds hcv).1
    have hblen : 1 ≤ bm25.length := ranking_some_ne_nil ha1
    have t1 : (1 : ℚ) / ((k : ℚ) + ((bm25.length + 1 : Nat) : ℚ)) < 1 / ((k : ℚ) + 1) :=
      rrf_term_lt k (bm25.length + 1) (by omega)
    have t2 : (1 : ℚ) / ((k : ℚ) + (rc : ℚ)) ≤ 1 / ((k : ℚ) + 1) := rrf_term_le k rc hrc
    have m1 := mul_lt_mul_of_pos_left t1 hwb
    have m2 := mul_le_mul_of_nonneg_left t2 hwv'
    unfold RRFFusion.fusedScore
    rw [ea1, ea2, ecb, ecv]
    push_cast at m1 m2 ⊢
    linarith

def c8bm25 : List (Chunk × ℚ) := [(chunkOf "a", 9), (chunkOf "c", 5)]

def c8vector : List (Chunk × ℚ) := [(chunkOf "a", 8)]

theorem C8_presence_bonus_witness :
    (0 : ℚ) < BM25_WEIGHT ∧ (0 : ℚ) < VECTOR_WEIGHT ∧
    RRFFusion.fusedScore BM25_WEIGHT VECTOR_WEIGHT 60 c8bm25 c8vector "c" <
      RRFFusion.fusedScore BM25_WEIGHT VECTOR_WEIGHT 60 c8bm25 c8vector "a" :=
  ⟨by norm_num [BM25_WEIGHT], by norm_num [VECTOR_WEIGHT],
   C8_presence_bonus BM25_WEIGHT VECTOR_WEIGHT 60 c8bm25 c8vector "a" "c"
     (chunkOf "a") (chunkOf "a") 9 8
     (by norm_num [BM25_WEIGHT]) (by norm_num [VECTOR_WEIGHT]) rfl rfl
     (Or.inl ⟨⟨(chunkOf "c", 5, 2), rfl⟩, rfl⟩)⟩

/-- C9: a chunk passes temporal filtering iff valid_from <= year <= expire_at;
both boundary years are valid (for a well-formed window), the years just
outside the window are invalid, and with no reference year the filter returns
the input unchanged. -/
theorem C9_temporal_filter_correct (chunks : List Chunk) (year : Int) (c : Chunk)
    (h : c.metadata.valid_from ≤ c.metadata.expire_at) :
    TemporalFilter.filter_chunks chunks Option.none = chunks ∧
    (c ∈ TemporalFilter.filter_chunks chunks (some year) ↔
      c ∈ chunks ∧ c.metadata.valid_from ≤ year ∧ year ≤ c.metadata.expire_at) ∧
    (c ∈ chunks → c ∈ TemporalFilter.filter_chunks chunks (some c.metadata.valid_from)) ∧
    (c ∈ chunks → c ∈ TemporalFilter.filter_chunks chunks (some c.metadata.expire_at)) ∧
    c ∉ TemporalFilter.filter_chunks chunks (some (c.metadata.valid_from - 1)) ∧
    c ∉ TemporalFilter.filter_chunks chunks (some (c.metadata.expire_at + 1)) := by
  refine ⟨rfl, ?_, ?_, ?_, ?_, ?_⟩
  · simp [TemporalFilter.filter_chunks, List.mem_filter, and_assoc]
  · intro hm
    simp [TemporalFilter.filter_chunks, List.mem_filter, hm, h]
  · intro hm
    simp [TemporalFilter.filter_chunks, List.mem_filter, hm, h]
  · simp only [TemporalFilter.filter_chunks, List.mem_filter, Bool.and_eq_true,
      decide_eq_true_eq, not_and]
    intro _ hle
    omega
  · simp only [TemporalFilter.filter_chunks, List.mem_filter, Bool.and_eq_true,
      decide_eq_true_eq, not_and]
    intro _ hle
    omega

def c9chunk : Chunk :=
  { id := "c1", text := "",
    metadata := { source := "law.json", type := "LAW", valid_from := 2013, expire_at := 2023 } }

theorem C9_temporal_filter_witness :
    (c9chunk.metadata.valid_from ≤ c9chunk.metadata.expire_at) ∧
    (TemporalFilter.filter_chunks [c9chunk] Option.none = [c9chunk] ∧
     (c9chunk ∈ TemporalFilter.filter_chunks [c9chunk] (some 2020) ↔
       c9chunk ∈ [c9chunk] ∧ c9chunk.metadata.valid_from ≤ 2020 ∧
         2020 ≤ c9chunk.metadata.expire_at) ∧
     (c9chunk ∈ [c9chunk] →
       c9chunk ∈ TemporalFilter.filter_chunks [c9chunk] (some c9chunk.metadata.valid_from)) ∧
     (c9chunk ∈ [c9chunk] →
       c9chunk ∈ TemporalFilter.filter_chunks [c9chunk] (some c9chunk.metadata.expire_at)) ∧
     c9chunk ∉ TemporalFilter.filter_chunks [c9chunk] (some (c9chunk.metadata.valid_from - 1)) ∧
     c9chunk ∉ TemporalFilter.filter_chunks [c9chunk] (some (c9chunk.metadata.expire_at + 1))) :=
  ⟨by decide, C9_temporal_filter_correct [c9chunk] 2020 c9chunk (by decide)⟩

/-- The raw list behind an optional category list (empty for None). -/
def catList (o : Option (List String)) : List String :=
  match o with
  | some l => l
  | Option.none => []

/-- Python truthiness of an optional category list: present means a non-None,
non-empty list. -/
def presentCats (o : Option (List String)) : Bool :=
  match o with
  | some l => !l.isEmpty
  | Option.none => false

/-- C10: the category merge is total and deterministic and resolves every one
of the four present/absent combinations to exactly the documented branch:
(1) both present with non-empty intersection gives the intersection
(characterised membership-wise, since the Python set has no fixed order);
(2) otherwise domain categories present gives them unchanged; (3) otherwise
entity categories present gives them; (4) otherwise None. The embedded
function is total, so no case raises. -/
theorem C10_merge_categories_totality (dc ec : Option (List String)) :
    (presentCats dc = true → presentCats ec = true → listInter (catList dc) (catList ec) ≠ [] →
      DomainMapper.merge_with_entity_categories dc ec =
          some (listInter (catList dc) (catList ec)) ∧
        ∀ x, x ∈ listInter (catList dc) (catList ec) ↔ x ∈ catList dc ∧ x ∈ catList ec) ∧
    (presentCats dc = true →
      (presentCats ec = false ∨ listInter (catList dc) (catList ec) = []) →
      DomainMapper.merge_with_entity_categories dc ec = some (catList dc)) ∧
    (presentCats dc = false → presentCats ec = true →
      DomainMapper.merge_with_entity_categories dc ec = some (catList ec)) ∧
    (presentCats dc = false → presentCats ec = false →
      DomainMapper.merge_with_entity_categories dc ec = Option.none) := by
  refine ⟨?_, ?_, ?_, ?_⟩
  · intro hd he hint
    constructor
    · cases dc with
      | none => simp [presentCats] at hd
      | some d =>
          cases ec with
          | none => simp [presentCats] at he
          | some e =>
              simp only [presentCats, Bool.not_eq_true', List.isEmpty_eq_false] at hd he
              have hd' : d.length > 0 := List.length_pos.mpr (by simpa using hd)
              have he' : e.length > 0 := List.length_pos.mpr (by simpa using he)
              have hint' : (listInter d e).length > 0 := by
                simpa [List.length_pos] using hint
              simp [DomainMapper.merge_with_entity_categories, catList, hd', he', hint']
    · intro x
      simp [listInter, List.mem_filter, List.mem_dedup, and_comm]
  · intro hd hcase
    cases dc with
    | none => simp [presentCats] at hd
    | some d =>
        simp only [presentCats, Bool.not_eq_true', List.isEmpty_eq_false] at hd
        have hd' : d.length > 0 := List.length_pos.mpr (by simpa using hd)
        cases ec with
        | none => simp [DomainMapper.merge_with_entity_categories, catList, hd']
        | some e =>
            rcases hcase with he | hint
            · simp only [presentCats, Bool.not_eq_true] at he
              have he' : e.isEmpty = true := by simpa using he
              have he'' : e = [] := List.isEmpty_iff.mp he'
              subst he''
              simp [DomainMapper.merge_with_entity_categories, catList, hd']
            · by_cases he' : e.length > 0
              · have hint' : (listInter d e).length = 0 := by
                  simp [catList] at hint
                  simp [hint]
                simp [DomainMapper.merge_with_entity_categories, catList, hd', he', hint']
              · have he'' : e = [] := by
                  simpa using List.length_eq_zero.mp (by omega)
                subst he''
                simp [DomainMapper.merge_with_entity_categories, catList, hd']
  · intro hd he
    cases ec with
    | none => simp [presentCats] at he
    | some e =>
        simp only [presentCats, Bool.not_eq_true', List.isEmpty_eq_false] at he
        have he' : e.length > 0 := List.length_pos.mpr (by simpa using he)
        cases dc with
        | none =>
            simp [DomainMapper.merge_with_entity_categories, DomainMapper.entityFallback,
              catList, he']
        | some d =>
            simp only [presentCats, Bool.not_eq_true] at hd
            have hd' : d.isEmpty = true := by simpa using hd
            have hd'' : d = [] := List.isEmpty_iff.mp hd'
            subst hd''
            simp [DomainMapper.merge_with_entity_categories, DomainMapper.entityFallback,
              catList, he']
  · intro hd he
    cases dc with
    | none =>
        cases ec with
        | none => simp [DomainMapper.merge_with_entity_categories, DomainMapper.entityFallback]
        | some e =>
            simp only [presentCats, Bool.not_eq_true] at he
            have he'' : e = [] := List.isEmpty_iff.mp (by simpa using he)
            subst he''
            simp [DomainMapper.merge_with_entity_categories, DomainMapper.entityFallback]
    | some d =>
        simp only [presentCats, Bool.not_eq_true] at hd
        have hd'' : d = [] := List.isEmpty_iff.mp (by simpa using hd)
        subst hd''
        cases ec with
        | none => simp [DomainMapper.merge_with_entity_categories, DomainMapper.entityFallback]
        | some e =>
            simp only [presentCats, Bool.not_eq_true] at he
            have he'' : e = [] := List.isEmpty_iff.mp (by simpa using he)
            subst he''
            simp [DomainMapper.merge_with_entity_categories, DomainMapper.entityFallback]

theorem C10_merge_categories_witness :
    (presentCats (some ["Phap_luat_Viet_Nam", "hien_phap"]) = true ∧
     presentCats (some ["hien_phap", "Bac_Ho"]) = true ∧
     listInter ["Phap_luat_Viet_Nam", "hien_phap"] ["hien_phap", "Bac_Ho"] ≠ []) ∧
    (DomainMapper.merge_with_entity_categories (some ["Phap_luat_Viet_Nam", "hien_phap"])
        (some ["hien_phap", "Bac_Ho"]) =
      some (listInter ["Phap_luat_Viet_Nam", "hien_phap"] ["hien_phap", "Bac_Ho"]) ∧
     ∀ x, x ∈ listInter ["Phap_luat_Viet_Nam", "hien_phap"] ["hien_phap", "Bac_Ho"] ↔
       x ∈ catList (some ["Phap_luat_Viet_Nam", "hien_phap"]) ∧
       x ∈ catList (some ["hien_phap", "Bac_Ho"])) :=
  ⟨⟨by decide, by decide, by decide⟩,
   (C10_merge_categories_totality (some ["Phap_luat_Viet_Nam", "hien_phap"])
      (some ["hien_phap", "Bac_Ho"])).1 (by decide) (by decide) (by decide)⟩

/-- C4 counterexample: SafetyGuard.check computes is_safe with the strict
comparison max_similarity < threshold, so a maximum similarity exactly equal
to the configured threshold is classified UNSAFE, not safe as the claim
states: with a bank vector giving similarity 17/20 and threshold 17/20 the
check returns is_safe = false. -/
theorem C4_counterexample_threshold_equality_unsafe :
    SafetyGuard.check id (some [1]) (some [[(17:ℚ)/20]]) (17/20)
      = .ok { is_safe := false, similarity_score := 17/20 } := by
  norm_num [SafetyGuard.check, npDotMatVec, dotQ, npMax]

/-- C4 amended: in SafetyGuard.check the safety verdict is exactly the strict
comparison, is_safe = true iff the computed maximum similarity is strictly
below the threshold — so similarity equal to the threshold or above is
unsafe; a similarity exactly at the threshold is classified safe only by the
embedding check of GuardrailService.invoke, whose unsafe test is the strict
max_score > threshold (shown at its threshold 0.7). -/
theorem C4_amended_threshold_comparisons
    (normalize : List ℚ → List ℚ) (emb : List ℚ) (bank : List (List ℚ)) (thr : ℚ)
    (r : SafetyCheckResult) (hemb : emb ≠ [])
    (h : SafetyGuard.check normalize (some emb) (some bank) thr = .ok r)
    (generate : Except PyExn String)
    (findJson : String → Except PyExn (Option (List (String × PyVal))))
    (query : String) (options : List (String × String)) :
    (r.is_safe = true ↔ r.similarity_score < thr) ∧
    GuardrailService.invoke [[(7:ℚ)/10]] ["seed"] generate findJson (some query)
      Option.none (some [1]) options = .ok (some true, .str "No checks performed") := by
  constructor
  · have hne : emb.isEmpty = false := by
      simpa [List.isEmpty_iff] using hemb
    simp only [SafetyGuard.check, hne, Bool.false_eq_true, if_false] at h
    cases hd : npDotMatVec (bank.map normalize) (normalize emb) with
    | error e => rw [hd] at h; cases h
    | ok sims =>
        rw [hd] at h
        dsimp only at h
        cases hm : npMax sims with
        | error e => rw [hm] at h; cases h
        | ok m =>
            rw [hm] at h
            have hr := Except.ok.inj h
            rw [← hr]
            simp
  · norm_num [GuardrailService.invoke, npDotMatVec, dotQ, npMax,
      GuardrailService.safety_threshold, pyNot]

theorem C4_amended_witness :
    (([1] : List ℚ) ≠ []) ∧
    SafetyGuard.check id (some [1]) (some [[(4:ℚ)/5]]) (17/20)
      = .ok { is_safe := true, similarity_score := 4/5 } ∧
    (({ is_safe := true, similarity_score := 4/5 } : SafetyCheckResult).is_safe = true ↔
      ({ is_safe := true, similarity_score := 4/5 } : SafetyCheckResult).similarity_score
        < 17/20) ∧
    GuardrailService.invoke [[(7:ℚ)/10]] ["seed"] (.error (.appError "x"))
      (fun _ => .ok Option.none) (some "q") Option.none (some [1]) []
      = .ok (some true, .str "No checks performed") := by
  have hcheck : SafetyGuard.check id (some [1]) (some [[(4:ℚ)/5]]) (17/20)
      = .ok { is_safe := true, similarity_score := 4/5 } := by
    norm_num [SafetyGuard.check, npDotMatVec, dotQ, npMax]
  have hmain := C4_amended_threshold_comparisons id [1] [[(4:ℚ)/5]] (17/20)
    { is_safe := true, similarity_score := 4/5 } (by simp) hcheck
    (.error (.appError "x")) (fun _ => .ok Option.none) "q" []
  exact ⟨by simp, hcheck, hmain.1, hmain.2⟩

/-- C5 counterexample: a dimension mismatch between the query embedding
(2-dimensional) and the safety bank (3-dimensional) makes SafetyGuard.check
raise ValueError out of the check (from the numpy dot product), instead of
evaluating to is_safe = true with no exception as the claim states. -/
theorem C5_counterexample_dimension_mismatch_raises :
    SafetyGuard.check id (some [1, 0]) (some [[1, 0, 0]]) SAFETY_THRESHOLD
      = .error (.valueError "shapes not aligned") := by
  simp [SafetyGuard.check, npDotMatVec]

/-- C5 amended: for every query embedding whose dimension differs from the
safety bank dimension, SafetyGuard.check and GuardrailService.invoke both
raise ValueError from the dot product; the fail-open behaviour holds one
layer up, in the agent: layer 1 of Agent catches the guardrail exception and
continues with (is_safe = True, empty dict), so no exception escapes the
safety check at the agent boundary and the query is treated as safe. -/
theorem C5_amended_fail_open_at_agent_layer
    (normalize : List ℚ → List ℚ) (hnorm : ∀ w, (normalize w).length = w.length)
    (emb : List ℚ) (bank : List (List ℚ)) (d : Nat) (thr : ℚ)
    (hemb : emb ≠ []) (hbank : bank ≠ []) (hrows : ∀ row ∈ bank, row.length = d)
    (hd : emb.length ≠ d)
    (deps : AgentDeps) (query : String) (options : List (String × String))
    (hdeps1 : deps.getEmbedding = .ok (some emb)) (hdeps2 : deps.safetyIndex = bank) :
    SafetyGuard.check normalize (some emb) (some bank) thr
        = .error (.valueError "shapes not aligned") ∧
    GuardrailService.invoke bank deps.safetyQueries deps.guardGenerate deps.findJson
        (some query) Option.none (some emb) options
        = .error (.valueError "shapes not aligned") ∧
    Agent.agentLayer1 deps query options = (some true, .dict []) := by
  obtain ⟨row0, hrow0⟩ := List.exists_mem_of_ne_nil bank hbank
  have hne : emb.isEmpty = false := by
    simpa [List.isEmpty_iff] using hemb
  have hall1 : (bank.map normalize).all
      (fun row => decide (row.length = (normalize emb).length)) = false := by
    rw [List.all_eq_false]
    refine ⟨normalize row0, List.mem_map_of_mem normalize hrow0, ?_⟩
    simp only [hnorm, hrows row0 hrow0, decide_eq_true_eq]
    omega
  have hall2 : bank.all (fun row => decide (row.length = emb.length)) = false := by
    rw [List.all_eq_false]
    refine ⟨row0, hrow0, ?_⟩
    simp only [hrows row0 hrow0, decide_eq_true_eq]
    omega
  have hcheck : SafetyGuard.check normalize (some emb) (some bank) thr
      = .error (.valueError "shapes not aligned") := by
    simp [SafetyGuard.check, hne, npDotMatVec, hall1]
  have hinv : GuardrailService.invoke bank deps.safetyQueries deps.guardGenerate deps.findJson
      (some query) Option.none (some emb) options
      = .error (.valueError "shapes not aligned") := by
    simp [GuardrailService.invoke, npDotMatVec, hall2]
  refine ⟨hcheck, hinv, ?_⟩
  rw [← hdeps2] at hinv
  simp [Agent.agentLayer1, hdeps1, hne, hinv]

def c5deps : AgentDeps :=
  { safetyIndex := [[1, 0, 0]], safetyQueries := ["seed"],
    getEmbedding := .ok (some [1, 0]),
    guardGenerate := .ok "irrelevant", classifyGenerate := .ok "irrelevant",
    mathGenerate := .ok "irrelevant", findJson := fun _ => .ok Option.none }

theorem C5_amended_witness :
    (([1, 0] : List ℚ) ≠ [] ∧ ([[1, 0, 0]] : List (List ℚ)) ≠ [] ∧
     ([1, 0] : List ℚ).length ≠ 3) ∧
    (SafetyGuard.check id (some [1, 0]) (some [[1, 0, 0]]) SAFETY_THRESHOLD
        = .error (.valueError "shapes not aligned") ∧
     GuardrailService.invoke [[1, 0, 0]] c5deps.safetyQueries c5deps.guardGenerate
        c5deps.findJson (some "q") Option.none (some [1, 0]) []
        = .error (.valueError "shapes not aligned") ∧
     Agent.agentLayer1 c5deps "q" [] = (some true, .dict [])) :=
  ⟨⟨by simp, by simp, by simp⟩,
   C5_amended_fail_open_at_agent_layer id (fun _ => rfl) [1, 0] [[1, 0, 0]] 3
     SAFETY_THRESHOLD (by simp) (by simp) (by intro row hrow; simp at hrow; simp [hrow])
     (by simp) c5deps "q" [] rfl rfl⟩

theorem sortedKeys_perm (options : List (String × String)) :
    (sortedKeys options).Perm (options.map Prod.fst) :=
  List.mergeSort_perm _ _

theorem sortedKeys_pairwise (options : List (String × String)) :
    (sortedKeys options).Pairwise (fun a b => a ≤ b) := by
  have h := @List.sorted_mergeSort String (fun a b : String => decide (a ≤ b))
    (fun a b c hab hbc => by
      simp only [decide_eq_true_eq] at hab hbc ⊢
      exact le_trans hab hbc)
    (fun a b => by
      simp only [Bool.or_eq_true, decide_eq_true_eq]
      exact le_total a b)
    (options.map Prod.fst)
  exact h.imp (fun hab => by simpa using hab)

/-- C3: when the per-query task does not complete within the configured
timeout, Agent.process_query returns a dict whose single answer value is the
lexicographically-first key of the presented non-empty option map (the head
of the sorted key list, which is a member of the keys and at most every
key). -/
theorem C3_timeout_returns_first_sorted_option (deps : AgentDeps) (query : String)
    (options : List (String × String)) (h : options ≠ []) :
    ∃ k, Agent.process_query deps query options true = .ok (.dict [("answer", .str k)]) ∧
      k ∈ options.map Prod.fst ∧ ∀ k2 ∈ options.map Prod.fst, k ≤ k2 := by
  have hlen : (sortedKeys options).length = options.length := by
    simp [sortedKeys]
  have hkeysne : sortedKeys options ≠ [] := by
    intro hnil
    rw [hnil] at hlen
    simp only [List.length_nil] at hlen
    exact h (List.length_eq_zero.mp hlen.symm)
  obtain ⟨k, t, hk⟩ := List.exists_cons_of_ne_nil hkeysne
  have hmem : ∀ k2 : String, k2 ∈ options.map Prod.fst ↔ k2 ∈ sortedKeys options := by
    intro k2
    exact ((sortedKeys_perm options).mem_iff).symm
  refine ⟨k, ?_, ?_, ?_⟩
  · simp [Agent.process_query, hk]
  · rw [hmem k, hk]
    exact List.mem_cons_self _ _
  · intro k2 hk2
    rw [hmem k2, hk] at hk2
    rcases List.mem_cons.mp hk2 with h1 | h1
    · exact le_of_eq h1.symm
    · have hp := sortedKeys_pairwise options
      rw [hk] at hp
      exact (List.pairwise_cons.mp hp).1 k2 h1

def c3deps : AgentDeps :=
  { safetyIndex := [[1]], safetyQueries := ["seed"], getEmbedding := .ok Option.none,
    guardGenerate := .ok "x", classifyGenerate := .ok "x", mathGenerate := .ok "x",
    findJson := fun _ => .ok Option.none }

theorem C3_timeout_witness :
    ([("B", "two"), ("A", "one")] : List (String × String)) ≠ [] ∧
    ∃ k, Agent.process_query c3deps "q" [("B", "two"), ("A", "one")] true
        = .ok (.dict [("answer", .str k)]) ∧
      k ∈ ([("B", "two"), ("A", "one")] : List (String × String)).map Prod.fst ∧
      ∀ k2 ∈ ([("B", "two"), ("A", "one")] : List (String × String)).map Prod.fst, k ≤ k2 :=
  ⟨by simp, C3_timeout_returns_first_sorted_option c3deps "q" [("B", "two"), ("A", "one")]
    (by simp)⟩

def c1deps : AgentDeps :=
  { safetyIndex := [[1]], safetyQueries := ["known harmful seed query"],
    getEmbedding := .ok (some [1]),
    guardGenerate := .error (.appError "llm unavailable"),
    classifyGenerate := .ok "x", mathGenerate := .ok "x",
    findJson := fun _ => .ok Option.none }

/-- C1 (code bug evaluation): the claim says Agent.process_query never
propagates an exception and always returns a dict with exactly one option
key, but the code re-raises every non-timeout exception. Failing input: the
query embedding matches the safety bank with similarity 1 > 0.7, so the
guardrail flags the query unsafe; its generate call raises, so
GuardrailService.invoke returns the string result
Error parsing JSON answer; Agent then calls guardrail_answer.get on that
non-dict value, raising AttributeError, which process_query_internal and
process_query both re-raise: process_query returns an exception, not an
answer dict. -/
theorem C1_process_query_raises_at_failing_input :
    Agent.process_query c1deps "known harmful seed query"
        [("A", "one"), ("B", "two")] false
      = .error (.attributeError "object has no attribute get") := by
  norm_num [Agent.process_query, Agent.process_query_internal, Agent.agentLayer1, c1deps,
    GuardrailService.invoke, npDotMatVec, dotQ, npMax, npArgmax, argmaxAux, pyListGet,
    GuardrailService.safety_threshold, pyNot, pyAttrGet]
